/-
Verification of the strategy-analysis engine of bifrost-trader-option.

The Python source is shallowly embedded over exact rationals (ℚ):
every float of the source becomes a ℚ, Python `int` quantities become ℤ,
`Optional[float]` becomes `Option ℚ`, and functions that raise become
`Except String`.  Python's `round(x, n)` (round-half-to-even) is modelled
exactly as `pyRound`.  Python truthiness on optional floats/strings
(`if x:` is false for `None`, `0.0` and `""`) is modelled explicitly at
each use site.

Embedded modules:
  app_fastapi/database/schemas.py          (data model)
  src/strategies/base_strategy.py          (BaseStrategy)
  src/strategies/covered_call.py           (CoveredCall)
  src/strategies/iron_condor.py            (IronCondor)
  src/analyzer/filter.py                   (FilterEngine)
  src/analyzer/analyzer.py                 (StrategyAnalyzer)
  src/backtesting/backtester.py            (StrategyBacktester)

Fields of the Pydantic models that are runtime-opaque in the engine
(`parameters : Dict[str, Any]`, `timestamp : datetime` defaulted to
`datetime.now()`) are omitted: no embedded computation reads them.
-/
import Mathlib

/-- Python `round(x)`: round half to even (banker's rounding), on exact
rationals. -/
def roundHalfEven (x : ℚ) : ℤ :=
  let f := ⌊x⌋
  let r := x - f
  if r < 1/2 then f
  else if 1/2 < r then f + 1
  else if f % 2 = 0 then f else f + 1

/-- Python `round(x, ndigits)` on exact rationals. -/
def pyRound (x : ℚ) (ndigits : ℕ) : ℚ :=
  (roundHalfEven (x * 10 ^ ndigits) : ℚ) / 10 ^ ndigits

/-- Python truthiness for an optional float: `None` and `0.0` are falsy. -/
def pyTruthy (o : Option ℚ) : Bool :=
  match o with
  | none => false
  | some x => decide (x ≠ 0)

/-- The Python pattern `f(x) if x else 0.0` for `x : Optional[float]`
(used for the optional per-leg Greeks). -/
def pyCondVal (o : Option ℚ) (f : ℚ → ℚ) : ℚ :=
  match o with
  | none => 0
  | some x => if x = 0 then 0 else f x

/-- Minimum of a list (Python `min(...)`; only applied to nonempty lists,
defaulting to 0 on `[]`). -/
def listMin (l : List ℚ) : ℚ :=
  l.foldl min (l.headD 0)

/-- Maximum of a list (Python `max(...)`; only applied to nonempty lists,
defaulting to 0 on `[]`). -/
def listMax (l : List ℚ) : ℚ :=
  l.foldl max (l.headD 0)

/-! ## Data model (app_fastapi/database/schemas.py) -/

/-- `OptionType` enumeration. -/
inductive OptionType where
  | CALL
  | PUT
  deriving DecidableEq

/-- `StrategyType` enumeration. -/
inductive StrategyType where
  | COVERED_CALL
  | IRON_CONDOR
  deriving DecidableEq

/-- `OptionContract`: immutable snapshot of one leg's market state. -/
structure OptionContract where
  symbol : String
  strike : ℚ
  expiration : String
  option_type : OptionType
  bid : ℚ
  ask : ℚ
  last : Option ℚ := none
  volume : ℤ := 0
  open_interest : ℤ := 0
  implied_volatility : Option ℚ := none
  delta : Option ℚ := none
  gamma : Option ℚ := none
  theta : Option ℚ := none
  vega : Option ℚ := none
  contract_id : Option ℤ := none
  exchange : Option String := none
  deriving DecidableEq

/-- `OptionsChain` (the `timestamp` field is omitted: unread by the engine). -/
structure OptionsChain where
  symbol : String
  underlying_price : ℚ
  contracts : List OptionContract
  deriving DecidableEq

/-- `CoveredCallParams`. -/
structure CoveredCallParams where
  symbol : String
  quantity : ℤ := 1
  stock_quantity : ℤ := 100
  call_strike : ℚ
  call_expiration : String
  stock_price : Option ℚ := none
  deriving DecidableEq

/-- `IronCondorParams`. -/
structure IronCondorParams where
  symbol : String
  put_sell_strike : ℚ
  put_buy_strike : ℚ
  call_sell_strike : ℚ
  call_buy_strike : ℚ
  expiration : String
  quantity : ℤ := 1
  deriving DecidableEq

/-- `ProfitPoint`. -/
structure ProfitPoint where
  underlying_price : ℚ
  profit_loss : ℚ
  roi : ℚ
  deriving DecidableEq

/-- `BreakevenPoint`. -/
structure BreakevenPoint where
  price : ℚ
  direction : String
  deriving DecidableEq

/-- `StrategyGreeks`. -/
structure StrategyGreeks where
  delta : ℚ
  gamma : ℚ
  theta : ℚ
  vega : ℚ
  deriving DecidableEq

/-- `StrategyResult` (the `parameters : Dict[str, Any]` and `timestamp`
fields are omitted: no embedded computation reads them). -/
structure StrategyResult where
  strategy_type : StrategyType
  symbol : String
  entry_cost : ℚ
  max_profit : ℚ
  max_loss : ℚ
  breakeven_points : List BreakevenPoint
  profit_profile : List ProfitPoint
  greeks : Option StrategyGreeks := none
  probability_of_profit : Option ℚ := none
  risk_reward_ratio : Option ℚ := none
  deriving DecidableEq

/-- `FilterCriteria`. -/
structure FilterCriteria where
  min_profit : Option ℚ := none
  min_risk_reward : Option ℚ := none
  min_probability : Option ℚ := none
  max_loss : Option ℚ := none
  min_premium_collected : Option ℚ := none
  max_breakeven_range : Option ℚ := none
  symbol : Option String := none
  strategy_type : Option StrategyType := none
  deriving DecidableEq

/-- `StrategyRanking` (`ranking_metrics : Dict[str, float]` as an
association list). -/
structure StrategyRanking where
  result : StrategyResult
  score : ℚ
  ranking_metrics : List (String × ℚ)
  deriving DecidableEq

/-! ## CoveredCall (src/strategies/covered_call.py) -/

/-- `CoveredCall.__init__` state: long stock plus a short call. -/
structure CoveredCall where
  symbol : String
  stock_price : ℚ
  stock_quantity : ℤ
  call_contract : OptionContract
  call_quantity : ℤ := 1
  deriving DecidableEq

namespace CoveredCall

/-- `self.call_strike = call_contract.strike` (set in `__init__`). -/
def call_strike (s : CoveredCall) : ℚ := s.call_contract.strike

/-- `self.call_premium = call_contract.bid` (set in `__init__`). -/
def call_premium (s : CoveredCall) : ℚ := s.call_contract.bid

/-- `CoveredCall.from_params`.  The Python coalescing
`stock_price = stock_price or params.stock_price` falls through on a
falsy argument (`None` or `0.0`); a `None` result raises `ValueError`. -/
def from_params (params : CoveredCallParams) (call_contract : OptionContract)
    (stock_price : Option ℚ := none) : Except String CoveredCall :=
  let stock_price : Option ℚ :=
    match stock_price with
    | some sp => if sp = 0 then params.stock_price else some sp
    | none => params.stock_price
  match stock_price with
  | none => .error "Stock price must be provided"
  | some sp =>
      .ok { symbol := params.symbol
            stock_price := sp
            stock_quantity := params.stock_quantity
            call_contract := call_contract
            call_quantity := params.quantity }

/-- `CoveredCall.calculate_entry_cost`. -/
def calculate_entry_cost (s : CoveredCall) : ℚ :=
  let stock_cost := s.stock_price * s.stock_quantity
  let premium_received := s.call_premium * 100 * s.call_quantity
  stock_cost - premium_received

/-- `CoveredCall.calculate_profit_loss`. -/
def calculate_profit_loss (s : CoveredCall) (underlying_price : ℚ) : ℚ :=
  let stock_pnl := (underlying_price - s.stock_price) * s.stock_quantity
  let call_pnl :=
    if underlying_price ≤ s.call_strike then
      s.call_premium * 100 * s.call_quantity
    else
      s.call_premium * 100 * s.call_quantity
        - (underlying_price - s.call_strike) * 100 * s.call_quantity
  stock_pnl + call_pnl

/-- `CoveredCall.calculate_max_profit`. -/
def calculate_max_profit (s : CoveredCall) : ℚ :=
  if s.stock_price ≤ s.call_strike then
    (s.call_strike - s.stock_price) * s.stock_quantity
      + s.call_premium * 100 * s.call_quantity
  else
    s.call_premium * 100 * s.call_quantity

/-- `CoveredCall.calculate_max_loss`. -/
def calculate_max_loss (s : CoveredCall) : ℚ :=
  let stock_cost := s.stock_price * s.stock_quantity
  let premium_received := s.call_premium * 100 * s.call_quantity
  max (stock_cost - premium_received) 0

/-- `CoveredCall.calculate_breakeven_points`. -/
def calculate_breakeven_points (s : CoveredCall) : List BreakevenPoint :=
  let premium_per_share := s.call_premium * 100 * s.call_quantity / s.stock_quantity
  let breakeven := s.stock_price - premium_per_share
  [{ price := pyRound breakeven 2, direction := "below" }]

/-- `CoveredCall.calculate_greeks`.  Returns `None` only when the call's
delta is missing; a missing (or zero) gamma/theta/vega contributes `0.0`
via the `... if contract.greek else 0.0` truthiness pattern. -/
def calculate_greeks (s : CoveredCall) : Option StrategyGreeks :=
  match s.call_contract.delta with
  | none => none
  | some d =>
      let stock_delta := 1 * (s.stock_quantity : ℚ)
      let call_delta := -d * 100 * s.call_quantity
      let call_gamma := pyCondVal s.call_contract.gamma (fun g => -g * 100 * s.call_quantity)
      let call_theta := pyCondVal s.call_contract.theta (fun t => -t * 100 * s.call_quantity)
      let call_vega := pyCondVal s.call_contract.vega (fun v => -v * 100 * s.call_quantity)
      some { delta := stock_delta + call_delta
             gamma := call_gamma
             theta := call_theta
             vega := call_vega }

end CoveredCall

/-! ## IronCondor (src/strategies/iron_condor.py) -/

/-- `IronCondor.__init__` state: short put spread plus short call spread. -/
structure IronCondor where
  symbol : String
  put_sell_contract : OptionContract
  put_buy_contract : OptionContract
  call_sell_contract : OptionContract
  call_buy_contract : OptionContract
  quantity : ℤ := 1
  deriving DecidableEq

namespace IronCondor

/-- `IronCondor.__init__` including its strike validation: each violated
check raises `ValueError` (modelled as `Except.error`), in source order. -/
def init (symbol : String)
    (put_sell_contract put_buy_contract call_sell_contract call_buy_contract : OptionContract)
    (quantity : ℤ := 1) : Except String IronCondor :=
  if put_sell_contract.strike ≤ put_buy_contract.strike then
    .error "Put buy strike must be less than put sell strike"
  else if call_buy_contract.strike ≤ call_sell_contract.strike then
    .error "Call sell strike must be less than call buy strike"
  else if call_sell_contract.strike ≤ put_sell_contract.strike then
    .error "Put sell strike should be less than call sell strike"
  else
    .ok { symbol := symbol
          put_sell_contract := put_sell_contract
          put_buy_contract := put_buy_contract
          call_sell_contract := call_sell_contract
          call_buy_contract := call_buy_contract
          quantity := quantity }

/-- `IronCondor.from_params`. -/
def from_params (params : IronCondorParams)
    (put_sell_contract put_buy_contract call_sell_contract call_buy_contract : OptionContract) :
    Except String IronCondor :=
  init params.symbol put_sell_contract put_buy_contract call_sell_contract
    call_buy_contract params.quantity

/-- `IronCondor.calculate_entry_cost`. -/
def calculate_entry_cost (s : IronCondor) : ℚ :=
  let put_sell_premium := s.put_sell_contract.bid * 100 * s.quantity
  let call_sell_premium := s.call_sell_contract.bid * 100 * s.quantity
  let put_buy_premium := s.put_buy_contract.ask * 100 * s.quantity
  let call_buy_premium := s.call_buy_contract.ask * 100 * s.quantity
  let net_credit := (put_sell_premium + call_sell_premium) - (put_buy_premium + call_buy_premium)
  (-net_credit)

/-- `IronCondor.calculate_profit_loss`. -/
def calculate_profit_loss (s : IronCondor) (underlying_price : ℚ) : ℚ :=
  let put_pnl :=
    if s.put_sell_contract.strike ≤ underlying_price then
      (s.put_sell_contract.bid - s.put_buy_contract.ask) * 100 * s.quantity
    else if underlying_price ≤ s.put_buy_contract.strike then
      -(s.put_sell_contract.strike - s.put_buy_contract.strike) * 100 * s.quantity
        + (s.put_sell_contract.bid - s.put_buy_contract.ask) * 100 * s.quantity
    else
      -(s.put_sell_contract.strike - underlying_price) * 100 * s.quantity
        + (s.put_sell_contract.bid - s.put_buy_contract.ask) * 100 * s.quantity
  let call_pnl :=
    if underlying_price ≤ s.call_sell_contract.strike then
      (s.call_sell_contract.bid - s.call_buy_contract.ask) * 100 * s.quantity
    else if s.call_buy_contract.strike ≤ underlying_price then
      -(s.call_buy_contract.strike - s.call_sell_contract.strike) * 100 * s.quantity
        + (s.call_sell_contract.bid - s.call_buy_contract.ask) * 100 * s.quantity
    else
      -(underlying_price - s.call_sell_contract.strike) * 100 * s.quantity
        + (s.call_sell_contract.bid - s.call_buy_contract.ask) * 100 * s.quantity
  put_pnl + call_pnl

/-- `IronCondor.calculate_max_profit`. -/
def calculate_max_profit (s : IronCondor) : ℚ :=
  -s.calculate_entry_cost

/-- `IronCondor.calculate_max_loss`. -/
def calculate_max_loss (s : IronCondor) : ℚ :=
  let put_spread_width := (s.put_sell_contract.strike - s.put_buy_contract.strike) * 100 * s.quantity
  let call_spread_width := (s.call_buy_contract.strike - s.call_sell_contract.strike) * 100 * s.quantity
  let net_credit := -s.calculate_entry_cost
  max (put_spread_width + call_spread_width - net_credit) 0

/-- `IronCondor.calculate_breakeven_points`. -/
def calculate_breakeven_points (s : IronCondor) : List BreakevenPoint :=
  let net_credit := -s.calculate_entry_cost
  let net_credit_per_share := net_credit / (100 * s.quantity)
  let lower_breakeven := s.put_sell_contract.strike - net_credit_per_share
  let upper_breakeven := s.call_sell_contract.strike + net_credit_per_share
  [{ price := pyRound lower_breakeven 2, direction := "below" },
   { price := pyRound upper_breakeven 2, direction := "above" }]

/-- `IronCondor.calculate_greeks`.  Returns `None` only when one of the
four deltas is missing; a missing (or zero) gamma/theta/vega contributes
`0.0` via the `... if contract.greek else 0.0` truthiness pattern. -/
def calculate_greeks (s : IronCondor) : Option StrategyGreeks :=
  match s.put_sell_contract.delta, s.put_buy_contract.delta,
        s.call_sell_contract.delta, s.call_buy_contract.delta with
  | some psd, some pbd, some csd, some cbd =>
      let put_sell_delta := -psd * 100 * s.quantity
      let put_sell_gamma := pyCondVal s.put_sell_contract.gamma (fun g => -g * 100 * s.quantity)
      let put_sell_theta := pyCondVal s.put_sell_contract.theta (fun t => -t * 100 * s.quantity)
      let put_sell_vega := pyCondVal s.put_sell_contract.vega (fun v => -v * 100 * s.quantity)
      let put_buy_delta := pbd * 100 * s.quantity
      let put_buy_gamma := pyCondVal s.put_buy_contract.gamma (fun g => g * 100 * s.quantity)
      let put_buy_theta := pyCondVal s.put_buy_contract.theta (fun t => t * 100 * s.quantity)
      let put_buy_vega := pyCondVal s.put_buy_contract.vega (fun v => v * 100 * s.quantity)
      let call_sell_delta := -csd * 100 * s.quantity
      let call_sell_gamma := pyCondVal s.call_sell_contract.gamma (fun g => -g * 100 * s.quantity)
      let call_sell_theta := pyCondVal s.call_sell_contract.theta (fun t => -t * 100 * s.quantity)
      let call_sell_vega := pyCondVal s.call_sell_contract.vega (fun v => -v * 100 * s.quantity)
      let call_buy_delta := cbd * 100 * s.quantity
      let call_buy_gamma := pyCondVal s.call_buy_contract.gamma (fun g => g * 100 * s.quantity)
      let call_buy_theta := pyCondVal s.call_buy_contract.theta (fun t => t * 100 * s.quantity)
      let call_buy_vega := pyCondVal s.call_buy_contract.vega (fun v => v * 100 * s.quantity)
      some { delta := put_sell_delta + put_buy_delta + call_sell_delta + call_buy_delta
             gamma := put_sell_gamma + put_buy_gamma + call_sell_gamma + call_buy_gamma
             theta := put_sell_theta + put_buy_theta + call_sell_theta + call_buy_theta
             vega := put_sell_vega + put_buy_vega + call_sell_vega + call_buy_vega }
  | _, _, _, _ => none

end IronCondor

/-! ## BaseStrategy (src/strategies/base_strategy.py)

The abstract base class is embedded as a record of the abstract-method
results (the per-variant overrides), with the concrete base-class
methods (`generate_profit_profile`, `calculate_risk_reward_ratio`,
`calculate_probability_of_profit`, `analyze`) defined over that record. -/

/-- A strategy instance as seen through the `BaseStrategy` interface:
the fields are the values of the abstract methods provided by the
concrete subclass. -/
structure Strategy where
  symbol : String
  strategy_type : StrategyType
  calculate_entry_cost : ℚ
  calculate_profit_loss : ℚ → ℚ
  calculate_max_profit : ℚ
  calculate_max_loss : ℚ
  calculate_breakeven_points : List BreakevenPoint
  calculate_greeks : Option StrategyGreeks

namespace Strategy

/-- `BaseStrategy.generate_profit_profile`. -/
def generate_profit_profile (s : Strategy) (min_price max_price : ℚ)
    (num_points : ℕ := 100) : List ProfitPoint :=
  let price_step := (max_price - min_price) / num_points
  let entry_cost := s.calculate_entry_cost
  (List.range (num_points + 1)).map (fun (i : ℕ) =>
    let price := min_price + (i : ℚ) * price_step
    let profit_loss := s.calculate_profit_loss price
    let roi := if entry_cost ≠ 0 then profit_loss / |entry_cost| * 100 else 0
    { underlying_price := pyRound price 2
      profit_loss := pyRound profit_loss 2
      roi := pyRound roi 2 })

/-- `BaseStrategy.calculate_risk_reward_ratio`. -/
def calculate_risk_reward_ratio (s : Strategy) : Option ℚ :=
  let max_profit := s.calculate_max_profit
  let max_loss := s.calculate_max_loss
  if max_loss = 0 then none
  else some (max_profit / max_loss)

/-- `BaseStrategy.calculate_probability_of_profit`.  (The source's extra
`greeks.delta is None` check is vacuous: `StrategyGreeks.delta` is a
required field of the schema.) -/
def calculate_probability_of_profit (s : Strategy) : Option ℚ :=
  match s.calculate_greeks with
  | none => none
  | some greeks => some (min (max |greeks.delta| 0) 1)

/-- `BaseStrategy.analyze`.  Note the fixed profile range
`min_price = 0.0`, `max_price = 500.0`, and the Python truthiness in
`round(x, 4) if x else None` that collapses a `0.0` ratio/probability
to `None`. -/
def analyze (s : Strategy) : StrategyResult :=
  let entry_cost := s.calculate_entry_cost
  let max_profit := s.calculate_max_profit
  let max_loss := s.calculate_max_loss
  let breakeven_points := s.calculate_breakeven_points
  let greeks := s.calculate_greeks
  let min_price : ℚ := 0
  let max_price : ℚ := 500
  let profit_profile := s.generate_profit_profile min_price max_price
  let risk_reward := s.calculate_risk_reward_ratio
  let prob_of_profit := s.calculate_probability_of_profit
  { strategy_type := s.strategy_type
    symbol := s.symbol
    entry_cost := pyRound entry_cost 2
    max_profit := pyRound max_profit 2
    max_loss := pyRound max_loss 2
    breakeven_points := breakeven_points
    profit_profile := profit_profile
    greeks := greeks
    probability_of_profit :=
      match prob_of_profit with
      | some p => if p = 0 then none else some (pyRound p 4)
      | none => none
    risk_reward_ratio :=
      match risk_reward with
      | some r => if r = 0 then none else some (pyRound r 4)
      | none => none }

end Strategy

/-- View a `CoveredCall` through the `BaseStrategy` interface. -/
def CoveredCall.toStrategy (s : CoveredCall) : Strategy :=
  { symbol := s.symbol
    strategy_type := StrategyType.COVERED_CALL
    calculate_entry_cost := s.calculate_entry_cost
    calculate_profit_loss := s.calculate_profit_loss
    calculate_max_profit := s.calculate_max_profit
    calculate_max_loss := s.calculate_max_loss
    calculate_breakeven_points := s.calculate_breakeven_points
    calculate_greeks := s.calculate_greeks }

/-- View an `IronCondor` through the `BaseStrategy` interface. -/
def IronCondor.toStrategy (s : IronCondor) : Strategy :=
  { symbol := s.symbol
    strategy_type := StrategyType.IRON_CONDOR
    calculate_entry_cost := s.calculate_entry_cost
    calculate_profit_loss := s.calculate_profit_loss
    calculate_max_profit := s.calculate_max_profit
    calculate_max_loss := s.calculate_max_loss
    calculate_breakeven_points := s.calculate_breakeven_points
    calculate_greeks := s.calculate_greeks }

/-! ## FilterEngine (src/analyzer/filter.py) -/

namespace FilterEngine

/-- `FilterEngine._calculate_breakeven_range`. -/
def calculate_breakeven_range (result : StrategyResult) : ℚ :=
  if result.breakeven_points.length < 2 then 0
  else
    let prices := result.breakeven_points.map (fun bp => bp.price)
    listMax prices - listMin prices

/-- `filter`, symbol block: `if criteria.symbol:` is a Python truthiness
test, so `None` and `""` both skip the block; the comparison is
case-insensitive. -/
def filterSymbol (criteria : FilterCriteria) (filtered : List StrategyResult) :
    List StrategyResult :=
  match criteria.symbol with
  | some sym =>
      if sym = "" then filtered
      else filtered.filter (fun r => r.symbol.toUpper = sym.toUpper)
  | none => filtered

/-- `filter`, strategy-type block (`if criteria.strategy_type:`; an enum
member is always truthy). -/
def filterStrategyType (criteria : FilterCriteria) (filtered : List StrategyResult) :
    List StrategyResult :=
  match criteria.strategy_type with
  | some st => filtered.filter (fun r => r.strategy_type = st)
  | none => filtered

/-- `filter`, minimum-profit block. -/
def filterMinProfit (criteria : FilterCriteria) (filtered : List StrategyResult) :
    List StrategyResult :=
  match criteria.min_profit with
  | some mp => filtered.filter (fun r => mp ≤ r.max_profit)
  | none => filtered

/-- `filter`, minimum risk/reward block (absent ratio fails the test). -/
def filterMinRiskReward (criteria : FilterCriteria) (filtered : List StrategyResult) :
    List StrategyResult :=
  match criteria.min_risk_reward with
  | some mrr =>
      filtered.filter (fun r =>
        match r.risk_reward_ratio with
        | some rr => decide (mrr ≤ rr)
        | none => false)
  | none => filtered

/-- `filter`, minimum probability-of-profit block. -/
def filterMinProbability (criteria : FilterCriteria) (filtered : List StrategyResult) :
    List StrategyResult :=
  match criteria.min_probability with
  | some mpr =>
      filtered.filter (fun r =>
        match r.probability_of_profit with
        | some p => decide (mpr ≤ p)
        | none => false)
  | none => filtered

/-- `filter`, maximum-loss block. -/
def filterMaxLoss (criteria : FilterCriteria) (filtered : List StrategyResult) :
    List StrategyResult :=
  match criteria.max_loss with
  | some ml => filtered.filter (fun r => r.max_loss ≤ ml)
  | none => filtered

/-- `filter`, minimum premium-collected block (credit results only). -/
def filterMinPremiumCollected (criteria : FilterCriteria) (filtered : List StrategyResult) :
    List StrategyResult :=
  match criteria.min_premium_collected with
  | some mpc => filtered.filter (fun r => r.entry_cost < 0 ∧ mpc ≤ |r.entry_cost|)
  | none => filtered

/-- `filter`, maximum breakeven-range block. -/
def filterMaxBreakevenRange (criteria : FilterCriteria) (filtered : List StrategyResult) :
    List StrategyResult :=
  match criteria.max_breakeven_range with
  | some mbr => filtered.filter (fun r => calculate_breakeven_range r ≤ mbr)
  | none => filtered

/-- `FilterEngine.filter`: sequential, conjunctive application of each
set criterion, one block per criterion in source order. -/
def filter (results : List StrategyResult) (criteria : FilterCriteria) :
    List StrategyResult :=
  let filtered := results
  let filtered := filterSymbol criteria filtered
  let filtered := filterStrategyType criteria filtered
  let filtered := filterMinProfit criteria filtered
  let filtered := filterMinRiskReward criteria filtered
  let filtered := filterMinProbability criteria filtered
  let filtered := filterMaxLoss criteria filtered
  let filtered := filterMinPremiumCollected criteria filtered
  let filtered := filterMaxBreakevenRange criteria filtered
  filtered

/-- `FilterEngine._default_scoring_function`. -/
def default_scoring_function (result : StrategyResult) : ℚ :=
  let score : ℚ := 0
  let score := score + min (result.max_profit / 10000) 1 * (3 / 10)
  let score :=
    match result.risk_reward_ratio with
    | some rr => score + min (rr / 10) 1 * (3 / 10)
    | none => score
  let score :=
    match result.probability_of_profit with
    | some p => score + p * (2 / 10)
    | none => score
  let score :=
    if result.entry_cost < 0 then score + min (|result.entry_cost| / 5000) 1 * (2 / 10)
    else score
  score

/-- `FilterEngine._calculate_ranking_metrics` (dict as association list,
entries in insertion order). -/
def calculate_ranking_metrics (result : StrategyResult) : List (String × ℚ) :=
  [("max_profit", result.max_profit),
   ("max_loss", result.max_loss),
   ("entry_cost", result.entry_cost)]
  ++ (match result.risk_reward_ratio with
      | some rr => [("risk_reward_ratio", rr)]
      | none => [])
  ++ (match result.probability_of_profit with
      | some p => [("probability_of_profit", p)]
      | none => [])
  ++ (match result.greeks with
      | some g => [("delta", g.delta), ("theta", g.theta), ("vega", g.vega)]
      | none => [])
  ++ [("breakeven_range", calculate_breakeven_range result)]

/-- The ranking entry `rank` builds per result (the loop body of
`FilterEngine.rank`). -/
def mk_ranking (scoring_function : StrategyResult → ℚ) (result : StrategyResult) :
    StrategyRanking :=
  { result := result
    score := scoring_function result
    ranking_metrics := calculate_ranking_metrics result }

/-- `FilterEngine.rank`: score every result, then sort descending by
score with Python's stable `list.sort(key=..., reverse=True)`
(embedded as the stable `List.mergeSort`).  The scoring function is a
total Lean function, so the source's `except: continue` branch around
scoring is unreachable in the model. -/
def rank (results : List StrategyResult)
    (scoring_function : StrategyResult → ℚ := default_scoring_function) :
    List StrategyRanking :=
  let rankings := results.map (mk_ranking scoring_function)
  rankings.mergeSort (fun a b => decide (b.score ≤ a.score))

/-- `FilterEngine.filter_and_rank`. -/
def filter_and_rank (results : List StrategyResult) (criteria : FilterCriteria)
    (scoring_function : StrategyResult → ℚ := default_scoring_function) :
    List StrategyRanking :=
  rank (filter results criteria) scoring_function

end FilterEngine

/-! ## StrategyAnalyzer (src/analyzer/analyzer.py) -/

namespace StrategyAnalyzer

/-- `StrategyAnalyzer.analyze_covered_call`.
`stock_price = params.stock_price or chain.underlying_price` is Python
truthiness coalescing (falls through on `None` and on `0.0`); an
analysis that raises inside the `try` is skipped (`filterMap`). -/
def analyze_covered_call (params : CoveredCallParams) (chain : OptionsChain) :
    List StrategyResult :=
  let stock_price : ℚ :=
    match params.stock_price with
    | some sp => if sp = 0 then chain.underlying_price else sp
    | none => chain.underlying_price
  if stock_price = 0 then []
  else
    let call_contracts := chain.contracts.filter (fun c =>
      c.option_type = OptionType.CALL ∧ c.expiration = params.call_expiration)
    if call_contracts.isEmpty then []
    else
      call_contracts.filterMap (fun call_contract =>
        match CoveredCall.from_params params call_contract (some stock_price) with
        | .ok strategy => some strategy.toStrategy.analyze
        | .error _ => none)

/-- `StrategyAnalyzer.analyze_iron_condor`: locates the four named
contracts for the expiration; if any is missing, or the condor's strike
validation raises, returns the empty list. -/
def analyze_iron_condor (params : IronCondorParams) (chain : OptionsChain) :
    List StrategyResult :=
  let contracts := chain.contracts.filter (fun c => c.expiration = params.expiration)
  if contracts.isEmpty then []
  else
    let put_sell := contracts.find? (fun c =>
      c.option_type = OptionType.PUT ∧ c.strike = params.put_sell_strike)
    let put_buy := contracts.find? (fun c =>
      c.option_type = OptionType.PUT ∧ c.strike = params.put_buy_strike)
    let call_sell := contracts.find? (fun c =>
      c.option_type = OptionType.CALL ∧ c.strike = params.call_sell_strike)
    let call_buy := contracts.find? (fun c =>
      c.option_type = OptionType.CALL ∧ c.strike = params.call_buy_strike)
    match put_sell, put_buy, call_sell, call_buy with
    | some ps, some pb, some cs, some cb =>
        match IronCondor.from_params params ps pb cs cb with
        | .ok strategy => [strategy.toStrategy.analyze]
        | .error _ => []
    | _, _, _, _ => []

end StrategyAnalyzer

/-! ## StrategyBacktester (src/backtesting/backtester.py) -/

/-- One row of the historical `DataFrame`; `underlying_price` is read
with `row.get('underlying_price', 0)`, hence optional. -/
structure HistoricalRow where
  timestamp : ℚ
  underlying_price : Option ℚ
  deriving DecidableEq

/-- One entry of the backtest trade log. -/
structure TradeRecord where
  timestamp : ℚ
  underlying_price : ℚ
  pnl : ℚ
  capital : ℚ
  deriving DecidableEq

/-- `BacktestResult` (src/backtesting/models.py); the pandas equity
series becomes a `List ℚ`. -/
structure BacktestResult where
  strategy_type : StrategyType
  symbol : String
  start_date : ℚ
  end_date : ℚ
  total_return : ℚ
  sharpe_ratio : Option ℚ := none
  max_drawdown : Option ℚ := none
  win_rate : Option ℚ := none
  total_trades : ℕ := 0
  profitable_trades : ℕ := 0
  equity_curve : List ℚ := []
  trades : List TradeRecord := []

namespace StrategyBacktester

/-- `pandas.Series.expanding().max()`: the running maximum, seeded by
the first element. -/
def expandingMaxFrom (m : ℚ) : List ℚ → List ℚ
  | [] => []
  | x :: xs =>
      let m' := max m x
      m' :: expandingMaxFrom m' xs

/-- `pandas.Series.expanding().max()` over a whole series. -/
def expandingMax : List ℚ → List ℚ
  | [] => []
  | x :: xs => x :: expandingMaxFrom x xs

/-- The loop body of `_backtest_simple`: skip a row with non-positive
(or absent, defaulted-to-0) underlying price, otherwise append a trade
with `capital = initial_capital + pnl` (not cumulative). -/
def backtestStep (strategy : Strategy) (initial_capital : ℚ)
    (acc : List TradeRecord) (row : HistoricalRow) : List TradeRecord :=
  let underlying_price := row.underlying_price.getD 0
  if underlying_price ≤ 0 then acc
  else
    let pnl := strategy.calculate_profit_loss underlying_price
    let current_capital := initial_capital + pnl
    acc ++ [{ timestamp := row.timestamp
              underlying_price := underlying_price
              pnl := pnl
              capital := current_capital }]

/-- `StrategyBacktester._backtest_simple`: the row-by-row path.  Win
rate counts the trades with strictly positive P&L. -/
def backtest_simple (strategy : Strategy) (historical_data : List HistoricalRow)
    (start_date end_date : ℚ) (initial_capital : ℚ) : BacktestResult :=
  let trades := historical_data.foldl (backtestStep strategy initial_capital) []
  let equity := initial_capital :: trades.map (fun t => t.capital)
  let total_return := ((trades.map (fun t => t.capital)).getLastD initial_capital
    - initial_capital) / initial_capital * 100
  let drawdown := List.zipWith (fun e m => (e - m) / m) equity (expandingMax equity)
  let max_drawdown := if drawdown.isEmpty then none else some (listMin drawdown * 100)
  let profitable := (trades.filter (fun t => 0 < t.pnl)).length
  let win_rate :=
    if trades.isEmpty then none
    else some ((profitable : ℚ) / trades.length * 100)
  { strategy_type := strategy.strategy_type
    symbol := strategy.symbol
    start_date := start_date
    end_date := end_date
    total_return := total_return
    max_drawdown := max_drawdown
    win_rate := win_rate
    total_trades := trades.length
    profitable_trades := profitable
    equity_curve := equity
    trades := trades }

/-- `StrategyBacktester.backtest_strategy` with the row-by-row engine
(`use_vectorbt = False`; an unavailable VectorBT import falls back to
this path).  Raising `ValueError` is modelled as `Except.error`; the
two empty-data checks precede engine dispatch in the source. -/
def backtest_strategy (strategy : Strategy) (historical_data : List HistoricalRow)
    (start_date end_date : Option ℚ) (initial_capital : ℚ := 10000) :
    Except String BacktestResult :=
  if historical_data.isEmpty then .error "Historical data is empty"
  else
    let historical_data :=
      match start_date with
      | some sd => historical_data.filter (fun (r : HistoricalRow) => sd ≤ r.timestamp)
      | none => historical_data
    let historical_data :=
      match end_date with
      | some ed => historical_data.filter (fun (r : HistoricalRow) => r.timestamp ≤ ed)
      | none => historical_data
    if historical_data.isEmpty then .error "No data in specified date range"
    else
      let start_date := start_date.getD (listMin (historical_data.map (fun (r : HistoricalRow) => r.timestamp)))
      let end_date := end_date.getD (listMax (historical_data.map (fun (r : HistoricalRow) => r.timestamp)))
      .ok (backtest_simple strategy historical_data start_date end_date initial_capital)

end StrategyBacktester

/-! ## Verification infrastructure

Pointwise predicates equivalent to the filter's sequential blocks, a
criteria union, and the concrete market data used to instantiate the
theorems.  These are statement/proof support, not part of the embedding. -/

namespace FilterEngine

/-- Pointwise form of the symbol block of `filter`. -/
def symbolPred (criteria : FilterCriteria) (r : StrategyResult) : Bool :=
  match criteria.symbol with
  | some sym => if sym = "" then true else decide (r.symbol.toUpper = sym.toUpper)
  | none => true

/-- Pointwise form of the strategy-type block of `filter`. -/
def strategyTypePred (criteria : FilterCriteria) (r : StrategyResult) : Bool :=
  match criteria.strategy_type with
  | some st => decide (r.strategy_type = st)
  | none => true

/-- Pointwise form of the minimum-profit block of `filter`. -/
def minProfitPred (criteria : FilterCriteria) (r : StrategyResult) : Bool :=
  match criteria.min_profit with
  | some mp => decide (mp ≤ r.max_profit)
  | none => true

/-- Pointwise form of the minimum risk/reward block of `filter`. -/
def minRiskRewardPred (criteria : FilterCriteria) (r : StrategyResult) : Bool :=
  match criteria.min_risk_reward with
  | some mrr =>
      match r.risk_reward_ratio with
      | some rr => decide (mrr ≤ rr)
      | none => false
  | none => true

/-- Pointwise form of the minimum-probability block of `filter`. -/
def minProbabilityPred (criteria : FilterCriteria) (r : StrategyResult) : Bool :=
  match criteria.min_probability with
  | some mpr =>
      match r.probability_of_profit with
      | some p => decide (mpr ≤ p)
      | none => false
  | none => true

/-- Pointwise form of the maximum-loss block of `filter`. -/
def maxLossPred (criteria : FilterCriteria) (r : StrategyResult) : Bool :=
  match criteria.max_loss with
  | some ml => decide (r.max_loss ≤ ml)
  | none => true

/-- Pointwise form of the minimum premium-collected block of `filter`. -/
def minPremiumCollectedPred (criteria : FilterCriteria) (r : StrategyResult) : Bool :=
  match criteria.min_premium_collected with
  | some mpc => decide (r.entry_cost < 0 ∧ mpc ≤ |r.entry_cost|)
  | none => true

/-- Pointwise form of the maximum breakeven-range block of `filter`. -/
def maxBreakevenRangePred (criteria : FilterCriteria) (r : StrategyResult) : Bool :=
  match criteria.max_breakeven_range with
  | some mbr => decide (calculate_breakeven_range r ≤ mbr)
  | none => true

/-- The conjunction of all eight criterion predicates: the pointwise
semantics of `filter`. -/
def criteriaPred (criteria : FilterCriteria) (r : StrategyResult) : Bool :=
  symbolPred criteria r && strategyTypePred criteria r && minProfitPred criteria r
    && minRiskRewardPred criteria r && minProbabilityPred criteria r
    && maxLossPred criteria r && minPremiumCollectedPred criteria r
    && maxBreakevenRangePred criteria r

end FilterEngine

/-- First-set-wins union of two optional fields. -/
def optFirst {α : Type} (a b : Option α) : Option α :=
  match a with
  | some x => some x
  | none => b

/-- Union of two optional symbol fields, where `""` counts as unset
(Python truthiness of the filter's `if criteria.symbol:`). -/
def symFirst (a b : Option String) : Option String :=
  match a with
  | some s => if s = "" then b else some s
  | none => b

/-- The union of two criteria: each field is the first criteria's when
that one sets it, otherwise the second's. -/
def FilterCriteria.merge (a b : FilterCriteria) : FilterCriteria :=
  { min_profit := optFirst a.min_profit b.min_profit
    min_risk_reward := optFirst a.min_risk_reward b.min_risk_reward
    min_probability := optFirst a.min_probability b.min_probability
    max_loss := optFirst a.max_loss b.max_loss
    min_premium_collected := optFirst a.min_premium_collected b.min_premium_collected
    max_breakeven_range := optFirst a.max_breakeven_range b.max_breakeven_range
    symbol := symFirst a.symbol b.symbol
    strategy_type := optFirst a.strategy_type b.strategy_type }

/-- Two criteria are compatible when no field is set by both, so their
union is well defined (the symbol field counts `""` as unset). -/
def FilterCriteria.Compatible (a b : FilterCriteria) : Prop :=
  (a.min_profit = none ∨ b.min_profit = none) ∧
  (a.min_risk_reward = none ∨ b.min_risk_reward = none) ∧
  (a.min_probability = none ∨ b.min_probability = none) ∧
  (a.max_loss = none ∨ b.max_loss = none) ∧
  (a.min_premium_collected = none ∨ b.min_premium_collected = none) ∧
  (a.max_breakeven_range = none ∨ b.max_breakeven_range = none) ∧
  ((a.symbol = none ∨ a.symbol = some "") ∨ (b.symbol = none ∨ b.symbol = some "")) ∧
  (a.strategy_type = none ∨ b.strategy_type = none)

/-! ### Concrete market data for witnesses and counterexamples -/

/-- A bare contract (a leg with the quoted prices and no Greeks). -/
def quotedContract (ot : OptionType) (strike bid ask : ℚ) : OptionContract :=
  { symbol := "SPY", strike := strike, expiration := "20260116",
    option_type := ot, bid := bid, ask := ask }

/-- Spec §8 concrete scenario 1: Covered Call, stock 150 × 100 shares,
155 call sold at bid 2.50. -/
def ccScenario1 : CoveredCall :=
  { symbol := "SPY", stock_price := 150, stock_quantity := 100,
    call_contract := quotedContract OptionType.CALL 155 (5/2) (13/5),
    call_quantity := 1 }

/-- Spec §8 concrete scenario 2: Iron Condor 140/145/155/160, sells at
bid 2.00, buys at ask 1.10. -/
def icScenario2 : IronCondor :=
  { symbol := "SPY",
    put_sell_contract := quotedContract OptionType.PUT 145 2 (21/10),
    put_buy_contract := quotedContract OptionType.PUT 140 1 (11/10),
    call_sell_contract := quotedContract OptionType.CALL 155 2 (21/10),
    call_buy_contract := quotedContract OptionType.CALL 160 1 (11/10),
    quantity := 1 }

/-- A covered call whose premium is zero: max profit 0 at the money,
positive max loss. -/
def ccZeroPremium : CoveredCall :=
  { symbol := "SPY", stock_price := 100, stock_quantity := 100,
    call_contract := quotedContract OptionType.CALL 100 0 (1/10),
    call_quantity := 1 }

/-- A covered call whose contract carries a delta but no gamma, theta or
vega. -/
def ccDeltaOnly : CoveredCall :=
  { symbol := "SPY", stock_price := 150, stock_quantity := 100,
    call_contract :=
      { quotedContract OptionType.CALL 155 (5/2) (13/5) with delta := some (1/2) },
    call_quantity := 1 }

/-- A covered call whose strike (600) lies above the fixed profile range. -/
def ccFarStrike : CoveredCall :=
  { symbol := "SPY", stock_price := 580, stock_quantity := 100,
    call_contract := quotedContract OptionType.CALL 600 1 (11/10),
    call_quantity := 1 }

/-- A minimal strategy result with default score 0. -/
def zeroResult (symbol : String) : StrategyResult :=
  { strategy_type := StrategyType.COVERED_CALL, symbol := symbol,
    entry_cost := 0, max_profit := 0, max_loss := 0,
    breakeven_points := [], profit_profile := [] }

/-! ## Theorems -/

/-- C1: for every IronCondor whose four contracts satisfy the
strike-ordering invariant, `calculate_max_profit` equals the negation of
`calculate_entry_cost`, and for every underlying price strictly between
the put-sell and call-sell strikes, `calculate_profit_loss` equals
`calculate_max_profit`. -/
theorem iron_condor_credit_and_flat_body (s : IronCondor)
    (h1 : s.put_buy_contract.strike < s.put_sell_contract.strike)
    (h2 : s.put_sell_contract.strike < s.call_sell_contract.strike)
    (h3 : s.call_sell_contract.strike < s.call_buy_contract.strike) :
    s.calculate_max_profit = -s.calculate_entry_cost ∧
    ∀ p : ℚ, s.put_sell_contract.strike < p → p < s.call_sell_contract.strike →
      s.calculate_profit_loss p = s.calculate_max_profit := by
  refine ⟨rfl, ?_⟩
  intro p hp1 hp2
  simp only [IronCondor.calculate_profit_loss, IronCondor.calculate_max_profit,
    IronCondor.calculate_entry_cost]
  rw [if_pos hp1.le, if_pos hp2.le]
  ring

/-- C1 witness: the spec's Iron Condor scenario (strikes 140/145/155/160,
credit 180) at underlying price 150. -/
theorem iron_condor_credit_and_flat_body_witness :
    icScenario2.calculate_max_profit = -icScenario2.calculate_entry_cost ∧
    icScenario2.calculate_profit_loss 150 = icScenario2.calculate_max_profit := by
  have h := iron_condor_credit_and_flat_body icScenario2
    (by decide) (by decide) (by decide)
  exact ⟨h.1, h.2 150 (by decide) (by decide)⟩

/-- C2: for every CoveredCall with `call_strike ≥ stock_price`,
`calculate_max_profit` equals
`(call_strike − stock_price)·stock_quantity + bid·100·call_quantity`,
and `calculate_profit_loss call_strike` equals `calculate_max_profit`. -/
theorem covered_call_max_profit_and_pl_at_strike (s : CoveredCall)
    (h : s.stock_price ≤ s.call_strike) :
    s.calculate_max_profit
        = (s.call_strike - s.stock_price) * s.stock_quantity
          + s.call_contract.bid * 100 * s.call_quantity ∧
    s.calculate_profit_loss s.call_strike = s.calculate_max_profit := by
  constructor
  · simp only [CoveredCall.calculate_max_profit]
    rw [if_pos h]
    rfl
  · simp only [CoveredCall.calculate_profit_loss, CoveredCall.calculate_max_profit]
    rw [if_pos le_rfl, if_pos h]

/-- C2 witness: the spec's Covered Call scenario (stock 150 × 100 shares,
155 call at bid 2.50: max profit 750). -/
theorem covered_call_max_profit_and_pl_at_strike_witness :
    ccScenario1.calculate_max_profit
        = (ccScenario1.call_strike - ccScenario1.stock_price) * ccScenario1.stock_quantity
          + ccScenario1.call_contract.bid * 100 * ccScenario1.call_quantity ∧
    ccScenario1.calculate_profit_loss ccScenario1.call_strike
        = ccScenario1.calculate_max_profit ∧
    ccScenario1.calculate_max_profit = 750 := by
  have h := covered_call_max_profit_and_pl_at_strike ccScenario1 (by decide)
  refine ⟨h.1, h.2, ?_⟩
  norm_num [CoveredCall.calculate_max_profit, CoveredCall.call_strike,
    CoveredCall.call_premium, ccScenario1, quotedContract]

/-- C3: `IronCondor.init` succeeds exactly when
`put_buy_strike < put_sell_strike < call_sell_strike < call_buy_strike`
(otherwise it raises `ValueError`), and on success the four contracts
are stored unchanged. -/
theorem iron_condor_init_validates (symbol : String)
    (ps pb cs cb : OptionContract) (q : ℤ) :
    ((∃ ic, IronCondor.init symbol ps pb cs cb q = Except.ok ic) ↔
      (pb.strike < ps.strike ∧ ps.strike < cs.strike ∧ cs.strike < cb.strike)) ∧
    (∀ ic, IronCondor.init symbol ps pb cs cb q = Except.ok ic →
      ic.symbol = symbol ∧ ic.put_sell_contract = ps ∧ ic.put_buy_contract = pb ∧
      ic.call_sell_contract = cs ∧ ic.call_buy_contract = cb ∧ ic.quantity = q) := by
  unfold IronCondor.init
  split_ifs with h1 h2 h3
  · refine ⟨⟨?_, ?_⟩, ?_⟩
    · rintro ⟨ic, hic⟩
      exact absurd hic (by simp)
    · rintro ⟨o1, _, _⟩
      exact absurd h1 (not_le.mpr o1)
    · intro ic hic
      exact absurd hic (by simp)
  · refine ⟨⟨?_, ?_⟩, ?_⟩
    · rintro ⟨ic, hic⟩
      exact absurd hic (by simp)
    · rintro ⟨_, _, o3⟩
      exact absurd h2 (not_le.mpr o3)
    · intro ic hic
      exact absurd hic (by simp)
  · refine ⟨⟨?_, ?_⟩, ?_⟩
    · rintro ⟨ic, hic⟩
      exact absurd hic (by simp)
    · rintro ⟨_, o2, _⟩
      exact absurd h3 (not_le.mpr o2)
    · intro ic hic
      exact absurd hic (by simp)
  · refine ⟨⟨fun _ => ⟨lt_of_not_le h1, lt_of_not_le h3, lt_of_not_le h2⟩,
      fun _ => ⟨_, rfl⟩⟩, ?_⟩
    intro ic hic
    injection hic with h
    subst h
    exact ⟨rfl, rfl, rfl, rfl, rfl, rfl⟩

/-- C3 witness: the spec's Iron Condor strikes 140/145/155/160 construct
successfully with the put-sell leg stored unchanged. -/
theorem iron_condor_init_validates_witness :
    ∃ ic, IronCondor.init "SPY" (quotedContract OptionType.PUT 145 2 (21/10))
        (quotedContract OptionType.PUT 140 1 (11/10))
        (quotedContract OptionType.CALL 155 2 (21/10))
        (quotedContract OptionType.CALL 160 1 (11/10)) 1 = Except.ok ic ∧
      ic.put_sell_contract = quotedContract OptionType.PUT 145 2 (21/10) := by
  have h := iron_condor_init_validates "SPY" (quotedContract OptionType.PUT 145 2 (21/10))
    (quotedContract OptionType.PUT 140 1 (11/10))
    (quotedContract OptionType.CALL 155 2 (21/10))
    (quotedContract OptionType.CALL 160 1 (11/10)) 1
  obtain ⟨ic, hic⟩ := h.1.mpr ⟨by decide, by decide, by decide⟩
  exact ⟨ic, hic, (h.2 ic hic).2.1⟩

/-- The `risk_reward_ratio` field of `analyze` in terms of
`calculate_risk_reward_ratio` (Python truthiness collapses a `0.0` ratio
to `None`). -/
theorem analyze_risk_reward_ratio_eq (s : Strategy) :
    (s.analyze).risk_reward_ratio
      = match s.calculate_risk_reward_ratio with
        | some r => if r = 0 then none else some (pyRound r 4)
        | none => none := rfl

/-- C4 counterexample: a covered call with zero premium at the money has
`max_loss = 10000 ≠ 0`, yet `analyze` reports `risk_reward_ratio = None`
(the `0.0` ratio is falsy in `round(risk_reward, 4) if risk_reward else
None`), refuting that `None` appears exactly when `max_loss == 0`. -/
theorem analyze_risk_reward_counterexample :
    (ccZeroPremium.toStrategy.analyze).risk_reward_ratio = none ∧
    ccZeroPremium.toStrategy.calculate_max_loss ≠ 0 := by
  constructor
  · rw [analyze_risk_reward_ratio_eq]
    norm_num [Strategy.calculate_risk_reward_ratio, CoveredCall.toStrategy,
      CoveredCall.calculate_max_loss, CoveredCall.calculate_max_profit,
      CoveredCall.call_premium, CoveredCall.call_strike, ccZeroPremium, quotedContract]
  · norm_num [CoveredCall.toStrategy, CoveredCall.calculate_max_loss,
      CoveredCall.call_premium, ccZeroPremium, quotedContract]

/-- C4 (amended): `analyze` reports `risk_reward_ratio = None` exactly
when `calculate_max_loss` is 0 **or `calculate_max_profit` is 0** (the
`0.0` ratio is collapsed to `None` by Python truthiness); otherwise it
reports `round(max_profit / max_loss, 4)`.  The division is guarded, so
a zero `max_loss` never reaches it. -/
theorem analyze_risk_reward_none_iff (s : Strategy) :
    ((s.analyze).risk_reward_ratio = none ↔
      s.calculate_max_loss = 0 ∨ s.calculate_max_profit = 0) ∧
    ((s.analyze).risk_reward_ratio = none ∨
      (s.analyze).risk_reward_ratio
        = some (pyRound (s.calculate_max_profit / s.calculate_max_loss) 4)) := by
  rw [analyze_risk_reward_ratio_eq]
  unfold Strategy.calculate_risk_reward_ratio
  by_cases hml : s.calculate_max_loss = 0
  · simp [hml]
  · by_cases hmp : s.calculate_max_profit = 0
    · simp [hml, hmp]
    · have hne : s.calculate_max_profit / s.calculate_max_loss ≠ 0 :=
        div_ne_zero hmp hml
      simp [hml, hmp, hne]

/-- C5 counterexample: a covered call whose contract has a delta but no
gamma does *not* make `calculate_greeks` return `None`; the missing
gamma/theta/vega are treated as `0.0`. -/
theorem covered_call_greeks_partial_counterexample :
    ccDeltaOnly.call_contract.gamma = none ∧
    ccDeltaOnly.calculate_greeks ≠ none := by
  exact ⟨rfl, by decide⟩

/-- C5 (amended): `calculate_greeks` returns `None` exactly when a
required *delta* is missing (the short call's for a Covered Call, any of
the four legs' for an Iron Condor); a missing gamma, theta or vega is
treated as `0.0` in the aggregate instead of propagating `None`. -/
theorem greeks_none_iff_delta_missing :
    (∀ s : CoveredCall, (s.calculate_greeks = none ↔ s.call_contract.delta = none)) ∧
    (∀ s : IronCondor, (s.calculate_greeks = none ↔
      (s.put_sell_contract.delta = none ∨ s.put_buy_contract.delta = none ∨
       s.call_sell_contract.delta = none ∨ s.call_buy_contract.delta = none))) := by
  constructor
  · intro s
    unfold CoveredCall.calculate_greeks
    cases h : s.call_contract.delta <;> simp
  · intro s
    unfold IronCondor.calculate_greeks
    cases h1 : s.put_sell_contract.delta <;> cases h2 : s.put_buy_contract.delta <;>
      cases h3 : s.call_sell_contract.delta <;> cases h4 : s.call_buy_contract.delta <;> simp

theorem filterSymbol_eq (c : FilterCriteria) (l : List StrategyResult) :
    FilterEngine.filterSymbol c l = l.filter (FilterEngine.symbolPred c) := by
  unfold FilterEngine.filterSymbol FilterEngine.symbolPred
  cases c.symbol with
  | none => simp
  | some sym => by_cases h : sym = "" <;> simp [h]

theorem filterStrategyType_eq (c : FilterCriteria) (l : List StrategyResult) :
    FilterEngine.filterStrategyType c l = l.filter (FilterEngine.strategyTypePred c) := by
  unfold FilterEngine.filterStrategyType FilterEngine.strategyTypePred
  cases c.strategy_type <;> simp

theorem filterMinProfit_eq (c : FilterCriteria) (l : List StrategyResult) :
    FilterEngine.filterMinProfit c l = l.filter (FilterEngine.minProfitPred c) := by
  unfold FilterEngine.filterMinProfit FilterEngine.minProfitPred
  cases c.min_profit <;> simp

theorem filterMinRiskReward_eq (c : FilterCriteria) (l : List StrategyResult) :
    FilterEngine.filterMinRiskReward c l = l.filter (FilterEngine.minRiskRewardPred c) := by
  unfold FilterEngine.filterMinRiskReward FilterEngine.minRiskRewardPred
  cases c.min_risk_reward <;> simp

theorem filterMinProbability_eq (c : FilterCriteria) (l : List StrategyResult) :
    FilterEngine.filterMinProbability c l = l.filter (FilterEngine.minProbabilityPred c) := by
  unfold FilterEngine.filterMinProbability FilterEngine.minProbabilityPred
  cases c.min_probability <;> simp

theorem filterMaxLoss_eq (c : FilterCriteria) (l : List StrategyResult) :
    FilterEngine.filterMaxLoss c l = l.filter (FilterEngine.maxLossPred c) := by
  unfold FilterEngine.filterMaxLoss FilterEngine.maxLossPred
  cases c.max_loss <;> simp

theorem filterMinPremiumCollected_eq (c : FilterCriteria) (l : List StrategyResult) :
    FilterEngine.filterMinPremiumCollected c l
      = l.filter (FilterEngine.minPremiumCollectedPred c) := by
  unfold FilterEngine.filterMinPremiumCollected FilterEngine.minPremiumCollectedPred
  cases c.min_premium_collected <;> simp

theorem filterMaxBreakevenRange_eq (c : FilterCriteria) (l : List StrategyResult) :
    FilterEngine.filterMaxBreakevenRange c l
      = l.filter (FilterEngine.maxBreakevenRangePred c) := by
  unfold FilterEngine.filterMaxBreakevenRange FilterEngine.maxBreakevenRangePred
  cases c.max_breakeven_range <;> simp

/-- `FilterEngine.filter` is the pointwise filter by the conjunction of
the eight criterion predicates. -/
theorem filterEngine_filter_eq (rs : List StrategyResult) (c : FilterCriteria) :
    FilterEngine.filter rs c = rs.filter (FilterEngine.criteriaPred c) := by
  unfold FilterEngine.filter
  dsimp only
  rw [filterSymbol_eq, filterStrategyType_eq, filterMinProfit_eq, filterMinRiskReward_eq,
    filterMinProbability_eq, filterMaxLoss_eq, filterMinPremiumCollected_eq,
    filterMaxBreakevenRange_eq]
  simp only [List.filter_filter]
  apply List.filter_congr
  intro r _
  simp only [FilterEngine.criteriaPred]
  conv_rhs => rw [Bool.and_comm]
  simp [Bool.and_assoc, Bool.and_comm, Bool.and_left_comm]

theorem symbolPred_merge (a b : FilterCriteria)
    (h : (a.symbol = none ∨ a.symbol = some "") ∨ (b.symbol = none ∨ b.symbol = some ""))
    (r : StrategyResult) :
    FilterEngine.symbolPred (a.merge b) r
      = (FilterEngine.symbolPred a r && FilterEngine.symbolPred b r) := by
  unfold FilterEngine.symbolPred FilterCriteria.merge symFirst
  rcases ha : a.symbol with _ | s
  · simp
  · by_cases hs : s = ""
    · simp [hs]
    · rcases h with (h | h) | (h | h) <;> simp_all

theorem strategyTypePred_merge (a b : FilterCriteria)
    (h : a.strategy_type = none ∨ b.strategy_type = none) (r : StrategyResult) :
    FilterEngine.strategyTypePred (a.merge b) r
      = (FilterEngine.strategyTypePred a r && FilterEngine.strategyTypePred b r) := by
  unfold FilterEngine.strategyTypePred FilterCriteria.merge optFirst
  rcases h with h | h <;> rw [h] <;> cases ha : a.strategy_type <;> simp_all

theorem minProfitPred_merge (a b : FilterCriteria)
    (h : a.min_profit = none ∨ b.min_profit = none) (r : StrategyResult) :
    FilterEngine.minProfitPred (a.merge b) r
      = (FilterEngine.minProfitPred a r && FilterEngine.minProfitPred b r) := by
  unfold FilterEngine.minProfitPred FilterCriteria.merge optFirst
  rcases h with h | h <;> rw [h] <;> cases ha : a.min_profit <;> simp_all

theorem minRiskRewardPred_merge (a b : FilterCriteria)
    (h : a.min_risk_reward = none ∨ b.min_risk_reward = none) (r : StrategyResult) :
    FilterEngine.minRiskRewardPred (a.merge b) r
      = (FilterEngine.minRiskRewardPred a r && FilterEngine.minRiskRewardPred b r) := by
  unfold FilterEngine.minRiskRewardPred FilterCriteria.merge optFirst
  rcases h with h | h <;> rw [h] <;> cases ha : a.min_risk_reward <;>
    cases hr : r.risk_reward_ratio <;> simp_all

theorem minProbabilityPred_merge (a b : FilterCriteria)
    (h : a.min_probability = none ∨ b.min_probability = none) (r : StrategyResult) :
    FilterEngine.minProbabilityPred (a.merge b) r
      = (FilterEngine.minProbabilityPred a r && FilterEngine.minProbabilityPred b r) := by
  unfold FilterEngine.minProbabilityPred FilterCriteria.merge optFirst
  rcases h with h | h <;> rw [h] <;> cases ha : a.min_probability <;>
    cases hr : r.probability_of_profit <;> simp_all

theorem maxLossPred_merge (a b : FilterCriteria)
    (h : a.max_loss = none ∨ b.max_loss = none) (r : StrategyResult) :
    FilterEngine.maxLossPred (a.merge b) r
      = (FilterEngine.maxLossPred a r && FilterEngine.maxLossPred b r) := by
  unfold FilterEngine.maxLossPred FilterCriteria.merge optFirst
  rcases h with h | h <;> rw [h] <;> cases ha : a.max_loss <;> simp_all

theorem minPremiumCollectedPred_merge (a b : FilterCriteria)
    (h : a.min_premium_collected = none ∨ b.min_premium_collected = none)
    (r : StrategyResult) :
    FilterEngine.minPremiumCollectedPred (a.merge b) r
      = (FilterEngine.minPremiumCollectedPred a r
          && FilterEngine.minPremiumCollectedPred b r) := by
  unfold FilterEngine.minPremiumCollectedPred FilterCriteria.merge optFirst
  rcases h with h | h <;> rw [h] <;> cases ha : a.min_premium_collected <;> simp_all

theorem maxBreakevenRangePred_merge (a b : FilterCriteria)
    (h : a.max_breakeven_range = none ∨ b.max_breakeven_range = none)
    (r : StrategyResult) :
    FilterEngine.maxBreakevenRangePred (a.merge b) r
      = (FilterEngine.maxBreakevenRangePred a r
          && FilterEngine.maxBreakevenRangePred b r) := by
  unfold FilterEngine.maxBreakevenRangePred FilterCriteria.merge optFirst
  rcases h with h | h <;> rw [h] <;> cases ha : a.max_breakeven_range <;> simp_all

/-- Under compatibility, the pointwise predicate of a criteria union is
the conjunction of the two criteria's predicates. -/
theorem criteriaPred_merge (a b : FilterCriteria) (h : a.Compatible b)
    (r : StrategyResult) :
    FilterEngine.criteriaPred (a.merge b) r
      = (FilterEngine.criteriaPred a r && FilterEngine.criteriaPred b r) := by
  obtain ⟨h1, h2, h3, h4, h5, h6, h7, h8⟩ := h
  unfold FilterEngine.criteriaPred
  rw [symbolPred_merge a b h7 r, strategyTypePred_merge a b h8 r,
    minProfitPred_merge a b h1 r, minRiskRewardPred_merge a b h2 r,
    minProbabilityPred_merge a b h3 r, maxLossPred_merge a b h4 r,
    minPremiumCollectedPred_merge a b h5 r, maxBreakevenRangePred_merge a b h6 r]
  simp [Bool.and_assoc, Bool.and_comm, Bool.and_left_comm]

/-- C6: filtering is conjunctive and order-independent: applying
criteria `a` then `b` equals applying `b` then `a`, and (for compatible
criteria) equals one filtering by their union; every output element
comes from the input. -/
theorem filter_commutative_intersection (results : List StrategyResult)
    (a b : FilterCriteria) :
    FilterEngine.filter (FilterEngine.filter results a) b
        = FilterEngine.filter (FilterEngine.filter results b) a ∧
    (a.Compatible b →
      FilterEngine.filter (FilterEngine.filter results a) b
        = FilterEngine.filter results (a.merge b)) ∧
    ∀ r ∈ FilterEngine.filter (FilterEngine.filter results a) b, r ∈ results := by
  refine ⟨?_, ?_, ?_⟩
  · rw [filterEngine_filter_eq, filterEngine_filter_eq, filterEngine_filter_eq,
      filterEngine_filter_eq, List.filter_filter, List.filter_filter]
    apply List.filter_congr
    intro r _
    rw [Bool.and_comm]
  · intro hcompat
    rw [filterEngine_filter_eq, filterEngine_filter_eq, filterEngine_filter_eq,
      List.filter_filter]
    apply List.filter_congr
    intro r _
    rw [criteriaPred_merge a b hcompat r, Bool.and_comm]
  · intro r hr
    rw [filterEngine_filter_eq, filterEngine_filter_eq] at hr
    exact List.mem_of_mem_filter (List.mem_of_mem_filter hr)

/-- C6 witness: the spec's filter scenario — three results with max
profits 100/500/1000 and `min_profit = 400` (compatible with a
`max_loss ≤ 50` criterion) keep exactly the two results at or above
400, in both application orders and under the union. -/
theorem filter_commutative_intersection_witness :
    FilterEngine.filter (FilterEngine.filter
        [{ zeroResult "A" with max_profit := 100 },
         { zeroResult "B" with max_profit := 500 },
         { zeroResult "C" with max_profit := 1000 }] { min_profit := some 400 })
        { max_loss := some 50 }
      = FilterEngine.filter (FilterEngine.filter
        [{ zeroResult "A" with max_profit := 100 },
         { zeroResult "B" with max_profit := 500 },
         { zeroResult "C" with max_profit := 1000 }] { max_loss := some 50 })
        { min_profit := some 400 } ∧
    FilterEngine.filter (FilterEngine.filter
        [{ zeroResult "A" with max_profit := 100 },
         { zeroResult "B" with max_profit := 500 },
         { zeroResult "C" with max_profit := 1000 }] { min_profit := some 400 })
        { max_loss := some 50 }
      = FilterEngine.filter
        [{ zeroResult "A" with max_profit := 100 },
         { zeroResult "B" with max_profit := 500 },
         { zeroResult "C" with max_profit := 1000 }]
        (FilterCriteria.merge { min_profit := some 400 } { max_loss := some 50 }) ∧
    FilterEngine.filter (FilterEngine.filter
        [{ zeroResult "A" with max_profit := 100 },
         { zeroResult "B" with max_profit := 500 },
         { zeroResult "C" with max_profit := 1000 }] { min_profit := some 400 })
        { max_loss := some 50 }
      = [{ zeroResult "B" with max_profit := 500 },
         { zeroResult "C" with max_profit := 1000 }] := by
  have h := filter_commutative_intersection
    [{ zeroResult "A" with max_profit := 100 },
     { zeroResult "B" with max_profit := 500 },
     { zeroResult "C" with max_profit := 1000 }]
    { min_profit := some 400 } { max_loss := some 50 }
  refine ⟨h.1, h.2.1 (by constructor <;> simp), by decide⟩

/-- The comparison `rank` sorts with (`key=lambda x: x.score`,
`reverse=True`). -/
def rankLE (a b : StrategyRanking) : Bool := decide (b.score ≤ a.score)

theorem rankLE_trans : ∀ a b c : StrategyRanking, rankLE a b → rankLE b c → rankLE a c := by
  intro a b c hab hbc
  simp only [rankLE, decide_eq_true_eq] at *
  exact hbc.trans hab

theorem rankLE_total : ∀ a b : StrategyRanking, rankLE a b || rankLE b a := by
  intro a b
  simp only [rankLE, Bool.or_eq_true, decide_eq_true_eq]
  exact le_total b.score a.score

theorem rank_eq_mergeSort (results : List StrategyResult) (f : StrategyResult → ℚ) :
    FilterEngine.rank results f
      = (results.map (FilterEngine.mk_ranking f)).mergeSort rankLE := rfl

/-- C7 counterexample: two distinct results with equal scores.  The
stable sort keeps ties in input order, so reversing the input reverses
the tied pair and the two rankings differ, refuting "reversing the input
list before ranking yields an identical score-sorted output". -/
theorem rank_reverse_counterexample :
    FilterEngine.rank [zeroResult "A", zeroResult "B"] (fun _ => 0)
      ≠ FilterEngine.rank [zeroResult "B", zeroResult "A"] (fun _ => 0) := by
  have h1 : FilterEngine.rank [zeroResult "A", zeroResult "B"] (fun _ => 0)
      = [FilterEngine.mk_ranking (fun _ => 0) (zeroResult "A"),
         FilterEngine.mk_ranking (fun _ => 0) (zeroResult "B")] := by
    rw [rank_eq_mergeSort]
    apply List.mergeSort_of_sorted
    simp [rankLE, FilterEngine.mk_ranking]
  have h2 : FilterEngine.rank [zeroResult "B", zeroResult "A"] (fun _ => 0)
      = [FilterEngine.mk_ranking (fun _ => 0) (zeroResult "B"),
         FilterEngine.mk_ranking (fun _ => 0) (zeroResult "A")] := by
    rw [rank_eq_mergeSort]
    apply List.mergeSort_of_sorted
    simp [rankLE, FilterEngine.mk_ranking]
  rw [h1, h2]
  simp [FilterEngine.mk_ranking, zeroResult]

/-- C7 (amended): `rank` returns the rankings sorted in descending order
of score, with equal-score entries keeping their relative input order
(stable sort); reversing the input before ranking yields an output with
the identical descending score sequence — but tied entries then appear
in the reversed relative order, so the full ranking lists need not be
identical (they are whenever all scores are distinct). -/
theorem rank_sorted_stable (results : List StrategyResult) (f : StrategyResult → ℚ) :
    (FilterEngine.rank results f).Pairwise
        (fun a b => b.score ≤ a.score) ∧
    (∀ q : ℚ, (FilterEngine.rank results f).filter (fun x => x.score = q)
        = (results.map (FilterEngine.mk_ranking f)).filter (fun x => x.score = q)) ∧
    (FilterEngine.rank results.reverse f).map (fun x => x.score)
        = (FilterEngine.rank results f).map (fun x => x.score) := by
  refine ⟨?_, ?_, ?_⟩
  · rw [rank_eq_mergeSort]
    exact (List.sorted_mergeSort rankLE_trans rankLE_total _).imp
      (fun h => decide_eq_true_eq.mp h)
  · intro q
    rw [rank_eq_mergeSort]
    set input := results.map (FilterEngine.mk_ranking f) with hinput
    set p := fun x : StrategyRanking => decide (x.score = q) with hp
    have hpair : (input.filter p).Pairwise (fun a b => rankLE a b = true) := by
      rw [List.pairwise_iff_forall_sublist]
      intro a b hab
      have ha := List.mem_filter.mp (hab.subset (List.mem_cons_self a [b]))
      have hb := List.mem_filter.mp (hab.subset (List.mem_cons_of_mem a (List.mem_cons_self b [])))
      simp only [hp, decide_eq_true_eq] at ha hb
      simp [rankLE, ha.2, hb.2]
    have hstable : List.Sublist (input.filter p) (input.mergeSort rankLE) :=
      List.sublist_mergeSort rankLE_trans rankLE_total hpair (List.filter_sublist input)
    have hperm : List.Perm ((input.mergeSort rankLE).filter p) (input.filter p) :=
      (List.mergeSort_perm input rankLE).filter p
    have hsub2 : List.Sublist (input.filter p) ((input.mergeSort rankLE).filter p) := by
      have := hstable.filter p
      simpa using this
    exact (hsub2.eq_of_length hperm.length_eq.symm).symm
  · rw [rank_eq_mergeSort, rank_eq_mergeSort]
    have hperm : List.Perm
        (((results.reverse.map (FilterEngine.mk_ranking f)).mergeSort rankLE).map
          (fun x => x.score))
        (((results.map (FilterEngine.mk_ranking f)).mergeSort rankLE).map
          (fun x => x.score)) := by
      apply List.Perm.map
      refine (List.mergeSort_perm _ _).trans (List.Perm.trans ?_
        (List.mergeSort_perm (results.map (FilterEngine.mk_ranking f)) rankLE).symm)
      rw [List.map_reverse]
      exact List.reverse_perm _
    have hs1 : (((results.reverse.map (FilterEngine.mk_ranking f)).mergeSort rankLE).map
        (fun x => x.score)).Pairwise (fun x y : ℚ => y ≤ x) := by
      refine List.Pairwise.map _ ?_
        (List.sorted_mergeSort rankLE_trans rankLE_total
          (results.reverse.map (FilterEngine.mk_ranking f)))
      intro a b hab
      exact decide_eq_true_eq.mp hab
    have hs2 : (((results.map (FilterEngine.mk_ranking f)).mergeSort rankLE).map
        (fun x => x.score)).Pairwise (fun x y : ℚ => y ≤ x) := by
      refine List.Pairwise.map _ ?_
        (List.sorted_mergeSort rankLE_trans rankLE_total
          (results.map (FilterEngine.mk_ranking f)))
      intro a b hab
      exact decide_eq_true_eq.mp hab
    exact List.Perm.eq_of_sorted (fun x y _ _ hxy hyx => le_antisymm hyx hxy) hs1 hs2 hperm

/-- C8 counterexample: the backtester does *not* report an empty
restricted range as a non-exception outcome — restricting a one-row
series to a window after its only timestamp raises `ValueError("No data
in specified date range")`, refuting the backtester half of the claim. -/
theorem backtest_empty_range_counterexample :
    StrategyBacktester.backtest_strategy ccScenario1.toStrategy
        [{ timestamp := 1, underlying_price := some 100 }] (some 2) none 10000
      = Except.error "No data in specified date range" := by
  rfl

/-- C8 (amended): data absence in the *analyzer* never raises — a chain
with no contract at the requested expiration (or a missing named Iron
Condor leg) yields the empty list — but the *backtester* raises a
`ValueError` (empty-data error) when the series restricted to
`[start, end]` is empty, rather than returning a no-data outcome. -/
theorem analyzer_empty_backtester_raises :
    (∀ (params : CoveredCallParams) (chain : OptionsChain),
      (∀ c ∈ chain.contracts,
        ¬(c.option_type = OptionType.CALL ∧ c.expiration = params.call_expiration)) →
      StrategyAnalyzer.analyze_covered_call params chain = []) ∧
    (∀ (params : IronCondorParams) (chain : OptionsChain),
      ((chain.contracts.filter (fun c => c.expiration = params.expiration)).find?
          (fun c => c.option_type = OptionType.PUT ∧ c.strike = params.put_sell_strike) = none ∨
       (chain.contracts.filter (fun c => c.expiration = params.expiration)).find?
          (fun c => c.option_type = OptionType.PUT ∧ c.strike = params.put_buy_strike) = none ∨
       (chain.contracts.filter (fun c => c.expiration = params.expiration)).find?
          (fun c => c.option_type = OptionType.CALL ∧ c.strike = params.call_sell_strike) = none ∨
       (chain.contracts.filter (fun c => c.expiration = params.expiration)).find?
          (fun c => c.option_type = OptionType.CALL ∧ c.strike = params.call_buy_strike) = none) →
      StrategyAnalyzer.analyze_iron_condor params chain = []) ∧
    (∀ (strategy : Strategy) (data : List HistoricalRow) (sd ed : Option ℚ) (cap : ℚ),
      data ≠ [] →
      (match ed with
        | some e =>
            (match sd with
              | some s => data.filter (fun (r : HistoricalRow) => s ≤ r.timestamp)
              | none => data).filter (fun (r : HistoricalRow) => r.timestamp ≤ e)
        | none =>
            match sd with
            | some s => data.filter (fun (r : HistoricalRow) => s ≤ r.timestamp)
            | none => data) = [] →
      StrategyBacktester.backtest_strategy strategy data sd ed cap
        = Except.error "No data in specified date range") := by
  refine ⟨?_, ?_, ?_⟩
  · intro params chain h
    unfold StrategyAnalyzer.analyze_covered_call
    dsimp only
    have hcc : chain.contracts.filter (fun c =>
        c.option_type = OptionType.CALL ∧ c.expiration = params.call_expiration) = [] := by
      rw [List.filter_eq_nil_iff]
      intro c hc
      simpa using h c hc
    rw [hcc]
    split_ifs <;> simp
  · intro params chain h
    unfold StrategyAnalyzer.analyze_iron_condor
    dsimp only
    by_cases hemp :
        (chain.contracts.filter (fun c => c.expiration = params.expiration)).isEmpty
    · rw [if_pos hemp]
    · rw [if_neg hemp]
      rcases h with h | h | h | h
      · rw [h]
      · rw [h]
        rcases e1 : (chain.contracts.filter (fun c => c.expiration = params.expiration)).find?
            (fun c => c.option_type = OptionType.PUT ∧ c.strike = params.put_sell_strike)
          with _ | ps <;> rw [e1]
      · rw [h]
        rcases e1 : (chain.contracts.filter (fun c => c.expiration = params.expiration)).find?
            (fun c => c.option_type = OptionType.PUT ∧ c.strike = params.put_sell_strike)
          with _ | ps
        · rw [e1]
        · rw [e1]
          rcases e2 : (chain.contracts.filter (fun c => c.expiration = params.expiration)).find?
              (fun c => c.option_type = OptionType.PUT ∧ c.strike = params.put_buy_strike)
            with _ | pb <;> rw [e2]
      · rw [h]
        rcases e1 : (chain.contracts.filter (fun c => c.expiration = params.expiration)).find?
            (fun c => c.option_type = OptionType.PUT ∧ c.strike = params.put_sell_strike)
          with _ | ps
        · rw [e1]
        · rw [e1]
          rcases e2 : (chain.contracts.filter (fun c => c.expiration = params.expiration)).find?
              (fun c => c.option_type = OptionType.PUT ∧ c.strike = params.put_buy_strike)
            with _ | pb
          · rw [e2]
          · rw [e2]
            rcases e3 : (chain.contracts.filter (fun c => c.expiration = params.expiration)).find?
                (fun c => c.option_type = OptionType.CALL ∧ c.strike = params.call_sell_strike)
              with _ | cs <;> rw [e3]
  · intro strategy data sd ed cap hne hrestrict
    unfold StrategyBacktester.backtest_strategy
    dsimp only
    rw [if_neg (by simpa using hne)]
    rw [hrestrict]
    rfl

/-- `roundHalfEven` fixes the integers. -/
theorem roundHalfEven_intCast (n : ℤ) : roundHalfEven (n : ℚ) = n := by
  unfold roundHalfEven
  simp [Int.floor_intCast]

/-- The profile prices of `analyze` are the fixed grid `0, 5, …, 500`,
for every strategy. -/
theorem profile_prices_eq (s : Strategy) :
    (s.analyze).profit_profile.map (fun pt => pt.underlying_price)
      = (List.range 101).map (fun (i : ℕ) => (5 : ℚ) * i) := by
  have h : (s.analyze).profit_profile = s.generate_profit_profile 0 500 100 := rfl
  rw [h]
  unfold Strategy.generate_profit_profile
  dsimp only
  rw [List.map_map]
  apply List.map_congr_left
  intro i hi
  simp only [Function.comp_apply]
  have h1 : (0 : ℚ) + (i : ℚ) * ((500 - 0) / ((100 : ℕ) : ℚ)) = ((5 * (i : ℤ) : ℤ) : ℚ) := by
    push_cast
    ring
  rw [h1]
  unfold pyRound
  have h2 : (((5 * (i : ℤ) : ℤ) : ℚ)) * 10 ^ 2 = ((500 * (i : ℤ) : ℤ) : ℚ) := by
    push_cast
    ring
  rw [h2, roundHalfEven_intCast]
  push_cast
  ring

/-- `foldl max` stays below any bound dominating the seed and the list. -/
theorem foldl_max_le (b : ℚ) : ∀ (l : List ℚ) (a : ℚ), a ≤ b → (∀ x ∈ l, x ≤ b) →
    l.foldl max a ≤ b := by
  intro l
  induction l with
  | nil =>
      intro a ha _
      simpa using ha
  | cons x xs ih =>
      intro a ha h
      simp only [List.foldl_cons]
      exact ih (max a x) (max_le ha (h x (List.mem_cons_self x xs)))
        (fun y hy => h y (List.mem_cons_of_mem x hy))

/-- `listMax` stays below any nonnegative bound dominating the list. -/
theorem listMax_le (l : List ℚ) (b : ℚ) (hb : 0 ≤ b) (h : ∀ x ∈ l, x ≤ b) :
    listMax l ≤ b := by
  unfold listMax
  apply foldl_max_le
  · cases l with
    | nil => simpa using hb
    | cons x xs => exact h x (by simp)
  · exact h

/-- C9 counterexample: for the covered call on a 600 strike, the largest
profile price of `analyze` is below the strike — the strike does *not*
lie within the profile's price range, refuting the claim. -/
theorem analyze_profile_far_strike_counterexample :
    listMax ((ccFarStrike.toStrategy.analyze).profit_profile.map
        (fun pt => pt.underlying_price))
      < ccFarStrike.call_strike := by
  have hstrike : ccFarStrike.call_strike = 600 := rfl
  have hle : listMax ((ccFarStrike.toStrategy.analyze).profit_profile.map
      (fun pt => pt.underlying_price)) ≤ 500 := by
    apply listMax_le _ _ (by norm_num)
    rw [profile_prices_eq]
    intro x hx
    obtain ⟨i, hi, hpi⟩ := List.mem_map.mp hx
    have hi' : i ≤ 100 := by
      have := List.mem_range.mp hi
      omega
    have : (i : ℚ) ≤ 100 := by exact_mod_cast hi'
    rw [← hpi]
    linarith
  rw [hstrike]
  linarith

/-- C9 (amended): the profile range of `analyze` is the fixed grid
`0, 5, …, 500` — independent of the strategy's strikes — so every
profile price lies in `[0, 500]`, and a strike is covered by the profile
range exactly when it lies in that fixed interval (a strike above 500,
as in the counterexample, falls outside it). -/
theorem analyze_profile_range_fixed (s : Strategy) :
    ((s.analyze).profit_profile.map (fun pt => pt.underlying_price)
        = (List.range 101).map (fun (i : ℕ) => (5 : ℚ) * i)) ∧
    ∀ pt ∈ (s.analyze).profit_profile,
      0 ≤ pt.underlying_price ∧ pt.underlying_price ≤ 500 := by
  refine ⟨profile_prices_eq s, ?_⟩
  intro pt hpt
  have hmem : pt.underlying_price
      ∈ (s.analyze).profit_profile.map (fun pt => pt.underlying_price) :=
    List.mem_map_of_mem _ hpt
  rw [profile_prices_eq s] at hmem
  obtain ⟨i, hi, hpi⟩ := List.mem_map.mp hmem
  have hi' : i ≤ 100 := by
    have := List.mem_range.mp hi
    omega
  have hc : (i : ℚ) ≤ 100 := by exact_mod_cast hi'
  have hc0 : (0 : ℚ) ≤ (i : ℚ) := by positivity
  constructor
  · rw [← hpi]
    linarith
  · rw [← hpi]
    linarith

/-- Folding the backtest step over a flat series priced at a zero-P&L
point appends one zero-P&L trade per row. -/
theorem backtest_fold_flat (s : Strategy) (cap p : ℚ) (hp : 0 < p)
    (hbe : s.calculate_profit_loss p = 0) :
    ∀ (l : List ℚ) (acc : List TradeRecord),
      (l.map (fun t => ({ timestamp := t, underlying_price := some p } : HistoricalRow))).foldl
          (StrategyBacktester.backtestStep s cap) acc
        = acc ++ l.map (fun t =>
            ({ timestamp := t, underlying_price := p, pnl := 0,
               capital := cap + 0 } : TradeRecord)) := by
  intro l
  induction l with
  | nil =>
      intro acc
      simp
  | cons x xs ih =>
      intro acc
      simp only [List.map_cons, List.foldl_cons]
      rw [ih]
      unfold StrategyBacktester.backtestStep
      dsimp only [Option.getD]
      rw [if_neg (not_le.mpr hp), hbe]
      simp

/-- C10: in the row-by-row backtest path a point with zero P&L is
counted as non-profitable (`win_rate` is the percentage of points with
strictly positive P&L), so a flat series at an exact breakeven price
yields `win_rate = 0`. -/
theorem backtest_win_rate_strict (s : Strategy) (ts : List ℚ) (sd ed cap p : ℚ)
    (hne : ts ≠ []) (hp : 0 < p) (hbe : s.calculate_profit_loss p = 0) :
    (StrategyBacktester.backtest_simple s
        (ts.map (fun t => { timestamp := t, underlying_price := some p })) sd ed cap).win_rate
      = some 0 ∧
    (StrategyBacktester.backtest_simple s
        (ts.map (fun t => { timestamp := t, underlying_price := some p })) sd ed
        cap).profitable_trades = 0 := by
  unfold StrategyBacktester.backtest_simple
  dsimp only
  rw [backtest_fold_flat s cap p hp hbe ts []]
  rw [List.nil_append]
  have hfilter : ((ts.map (fun t =>
      ({ timestamp := t, underlying_price := p, pnl := 0,
         capital := cap + 0 } : TradeRecord))).filter (fun t => 0 < t.pnl)) = [] := by
    rw [List.filter_eq_nil_iff]
    intro t ht
    obtain ⟨u, _, hu⟩ := List.mem_map.mp ht
    rw [← hu]
    simp
  rw [hfilter]
  have hnonempty : (ts.map (fun t =>
      ({ timestamp := t, underlying_price := p, pnl := 0,
         capital := cap + 0 } : TradeRecord))).isEmpty = false := by
    simp [hne]
  rw [hnonempty]
  simp

/-- C10 witness: the spec's Covered Call has breakeven 147.5; a flat
three-point series at 147.5 backtests to a zero win rate. -/
theorem backtest_win_rate_strict_witness :
    (StrategyBacktester.backtest_simple ccScenario1.toStrategy
        ([1, 2, 3].map (fun t => { timestamp := t, underlying_price := some (295/2) }))
        0 3 10000).win_rate = some 0 := by
  have h := backtest_win_rate_strict ccScenario1.toStrategy [1, 2, 3] 0 3 10000 (295/2)
    (by decide) (by norm_num)
    (by norm_num [CoveredCall.toStrategy, CoveredCall.calculate_profit_loss,
      CoveredCall.call_strike, CoveredCall.call_premium, ccScenario1, quotedContract])
  exact h.1
